import Mathlib

/-!
Verification of the scroll-animation controller of `whyatul/kbs`.

The repository ships three sibling variants of the same module:
  * `src/unnamed/part_000` — the Motion One variant (full feature set),
  * `src/src/scripts/scroll-animations.ts` (top half) — a "minimal" Motion One
    variant with several hard-coded timings,
  * `src/src/scripts/scroll-animations.ts` (bottom half) — an anime.js variant.
Definitions below are shallow embeddings of those sources; each definition's
doc comment names the variant and the lines it embeds.  External browser /
library primitives (`IntersectionObserver`, `requestAnimationFrame`,
`parseInt`, `parseFloat`, `toFixed`, `Math.round`, string `split`) are
modelled explicitly where the claims depend on them.
-/

/-- One `IntersectionObserverEntry` as consumed by the callbacks: the target
element (identified by a numeric id) and its `isIntersecting` flag. -/
structure Entry where
  target : Nat
  isIntersecting : Bool
deriving DecidableEq, Repr

/-- The mutable state of `ScrollAnimationController`: the single
`animatedElements : Set<Element>` field (`part_000` line 6, and likewise in
both variants of `scroll-animations.ts`).  Both the entrance observer callback
and the stagger observer callback read and write this one set. -/
structure Controller where
  animatedElements : List Nat
deriving DecidableEq, Repr

/-- The body of the `entries.forEach` loop shared verbatim by
`handleIntersection` (`part_000` lines 44–51) and the stagger observer
callback (`part_000` lines 124–131): for each entry in order, if
`entry.isIntersecting && !animatedElements.has(entry.target)` then add the
target to the set and dispatch it.  Returns the updated set together with the
list of dispatched targets, in dispatch order. -/
def seenFold (seen : List Nat) : List Entry → List Nat × List Nat
  | [] => (seen, [])
  | entry :: rest =>
    if entry.isIntersecting = true ∧ entry.target ∉ seen then
      ((seenFold (entry.target :: seen) rest).1,
        entry.target :: (seenFold (entry.target :: seen) rest).2)
    else
      seenFold seen rest

/-- `handleIntersection` (`part_000` lines 44–51 /
`scroll-animations.ts` lines 43–50): processes one callback batch against the
controller's `animatedElements`; the returned list holds the targets on which
`animateElement` is invoked. -/
def handleIntersection (c : Controller) (entries : List Entry) :
    Controller × List Nat :=
  (⟨(seenFold c.animatedElements entries).1⟩,
    (seenFold c.animatedElements entries).2)

/-- The stagger observer callback (`part_000` lines 123–133 /
`scroll-animations.ts` lines 119–129): identical guard logic, dispatching
`animateStaggerChildren`, against the same `this.animatedElements` set. -/
def staggerCallback (c : Controller) (entries : List Entry) :
    Controller × List Nat :=
  (⟨(seenFold c.animatedElements entries).1⟩,
    (seenFold c.animatedElements entries).2)

/-- A whole page lifetime of entrance-observer callback batches, starting
from a given controller state; collects every `animateElement` dispatch. -/
def runBatches (c : Controller) : List (List Entry) → Controller × List Nat
  | [] => (c, [])
  | b :: bs =>
    ((runBatches (handleIntersection c b).1 bs).1,
      (handleIntersection c b).2 ++ (runBatches (handleIntersection c b).1 bs).2)

/-- The controller at construction time: `animatedElements` is empty. -/
def initialController : Controller := ⟨[]⟩

-- ## Helper lemmas about the dedup fold

theorem seenFold_subset (entries : List Entry) (seen : List Nat) (x : Nat)
    (hx : x ∈ seen) : x ∈ (seenFold seen entries).1 := by
  induction entries generalizing seen with
  | nil => exact hx
  | cons e rest ih =>
    unfold seenFold
    split
    · exact ih (e.target :: seen) (List.mem_cons_of_mem _ hx)
    · exact ih seen hx

theorem seenFold_count_le (entries : List Entry) (seen : List Nat) (x : Nat) :
    (seenFold seen entries).2.count x ≤
      (if x ∈ (seenFold seen entries).1 ∧ x ∉ seen then 1 else 0) := by
  induction entries generalizing seen with
  | nil => simp [seenFold]
  | cons e rest ih =>
    unfold seenFold
    split
    · rename_i hguard
      have h2 := ih (e.target :: seen)
      by_cases hx : x = e.target
      · subst hx
        have hxseen : e.target ∈ e.target :: seen := List.mem_cons_self _ _
        have hcount : (seenFold (e.target :: seen) rest).2.count e.target = 0 := by
          rw [if_neg (by simp [hxseen])] at h2
          omega
        have hmem : e.target ∈ (seenFold (e.target :: seen) rest).1 :=
          seenFold_subset rest (e.target :: seen) e.target hxseen
        rw [if_pos ⟨hmem, hguard.2⟩]
        simp [List.count_cons, hcount]
      · simp only [List.mem_cons, hx, false_or] at h2
        rw [List.count_cons_of_ne hx]
        exact h2
    · exact ih seen

theorem seenFold_skip_seen (entries : List Entry) (seen : List Nat) (x : Nat)
    (hx : x ∈ seen) : x ∉ (seenFold seen entries).2 := by
  intro hmem
  have h := seenFold_count_le entries seen x
  rw [if_neg (by simp [hx])] at h
  have : 0 < (seenFold seen entries).2.count x := List.count_pos_iff.mpr hmem
  omega

theorem runBatches_subset (bs : List (List Entry)) (c : Controller) (x : Nat)
    (hx : x ∈ c.animatedElements) :
    x ∈ (runBatches c bs).1.animatedElements := by
  induction bs generalizing c with
  | nil => exact hx
  | cons b rest ih =>
    unfold runBatches
    exact ih _ (seenFold_subset b c.animatedElements x hx)

theorem runBatches_count_le (bs : List (List Entry)) (c : Controller)
    (x : Nat) :
    (runBatches c bs).2.count x ≤
      (if x ∈ (runBatches c bs).1.animatedElements ∧
          x ∉ c.animatedElements then 1 else 0) := by
  induction bs generalizing c with
  | nil => simp [runBatches]
  | cons b rest ih =>
    unfold runBatches
    rw [List.count_append]
    have h1 := seenFold_count_le b c.animatedElements x
    have h2 := ih ⟨(seenFold c.animatedElements b).1⟩
    simp only [handleIntersection] at h2 ⊢
    by_cases hx0 : x ∈ c.animatedElements
    · have hx1 : x ∈ (seenFold c.animatedElements b).1 :=
        seenFold_subset b c.animatedElements x hx0
      have hx2 : x ∈
          (runBatches ⟨(seenFold c.animatedElements b).1⟩ rest).1.animatedElements :=
        runBatches_subset rest ⟨(seenFold c.animatedElements b).1⟩ x hx1
      simp [hx0, hx1, hx2] at h1 h2 ⊢
      omega
    · by_cases hx1 : x ∈ (seenFold c.animatedElements b).1
      · have hx2 : x ∈
            (runBatches ⟨(seenFold c.animatedElements b).1⟩ rest).1.animatedElements :=
          runBatches_subset rest ⟨(seenFold c.animatedElements b).1⟩ x hx1
        simp [hx0, hx1, hx2] at h1 h2 ⊢
        omega
      · by_cases hx2 : x ∈
            (runBatches ⟨(seenFold c.animatedElements b).1⟩ rest).1.animatedElements
        · simp [hx0, hx1, hx2] at h1 h2 ⊢
          omega
        · simp [hx0, hx1, hx2] at h1 h2 ⊢
          omega

/-- C1: for every element carrying the entrance opt-in attribute, the seen-set
guard in `handleIntersection` makes the `animateElement` dispatch fire at most
once per page lifetime: over any sequence of intersection callback batches
starting from the freshly constructed controller, an element is dispatched at
most one time, and an element already in the seen set is skipped by every
batch. -/
theorem entrance_dispatch_at_most_once
    (batches : List (List Entry)) (x : Nat) (c : Controller)
    (entries : List Entry) (hx : x ∈ c.animatedElements) :
    (runBatches initialController batches).2.count x ≤ 1 ∧
      x ∉ (handleIntersection c entries).2 := by
  constructor
  · have h := runBatches_count_le batches initialController x
    split at h
    · omega
    · omega
  · exact seenFold_skip_seen entries c.animatedElements x hx

/-- Witness for `entrance_dispatch_at_most_once`: an element that enters,
exits, and re-enters the viewport across three batches is dispatched at most
once, and an already-seen element is skipped. -/
theorem entrance_dispatch_at_most_once_witness :
    (runBatches initialController
        [[⟨5, true⟩], [⟨5, false⟩], [⟨5, true⟩]]).2.count 5 ≤ 1 ∧
      5 ∉ (handleIntersection ⟨[5]⟩ [⟨5, true⟩]).2 :=
  entrance_dispatch_at_most_once
    [[⟨5, true⟩], [⟨5, false⟩], [⟨5, true⟩]] 5 ⟨[5]⟩ [⟨5, true⟩]
    (by decide)

-- ## Failure model for the dispatcher loop (C4)

/-- `handleIntersection` with a fallible animation primitive, following
JavaScript semantics of `entries.forEach`: the target is added to
`animatedElements` *before* `animateElement` is invoked (`part_000`
lines 47–48); there is no `try`/`catch`, so a thrown error propagates out of
the `forEach` callback and aborts the iteration over the remaining entries.
`animateOk t = false` means the primitive invocation for `t` throws.  Returns
the updated seen set, the successfully dispatched targets in order, and the
element whose invocation threw, if any. -/
def seenFoldExc (animateOk : Nat → Bool) (seen : List Nat) :
    List Entry → List Nat × List Nat × Option Nat
  | [] => (seen, [], none)
  | entry :: rest =>
    if entry.isIntersecting = true ∧ entry.target ∉ seen then
      if animateOk entry.target then
        ((seenFoldExc animateOk (entry.target :: seen) rest).1,
          entry.target :: (seenFoldExc animateOk (entry.target :: seen) rest).2.1,
          (seenFoldExc animateOk (entry.target :: seen) rest).2.2)
      else
        (entry.target :: seen, [], some entry.target)
    else
      seenFoldExc animateOk seen rest

theorem seenFoldExc_subset (animateOk : Nat → Bool) (entries : List Entry)
    (seen : List Nat) (x : Nat) (hx : x ∈ seen) :
    x ∈ (seenFoldExc animateOk seen entries).1 := by
  induction entries generalizing seen with
  | nil => exact hx
  | cons e rest ih =>
    unfold seenFoldExc
    split
    · split
      · exact ih (e.target :: seen) (List.mem_cons_of_mem _ hx)
      · exact List.mem_cons_of_mem _ hx
    · exact ih seen hx

theorem seenFoldExc_err_seen (animateOk : Nat → Bool) (entries : List Entry)
    (seen : List Nat) (x : Nat)
    (hx : (seenFoldExc animateOk seen entries).2.2 = some x) :
    x ∈ (seenFoldExc animateOk seen entries).1 ∧ animateOk x = false := by
  induction entries generalizing seen with
  | nil => simp [seenFoldExc] at hx
  | cons e rest ih =>
    unfold seenFoldExc at hx ⊢
    split at hx
    · rename_i hguard
      split at hx
      · rename_i hok
        simp only at hx
        have := ih (e.target :: seen) hx
        simpa [hguard, hok] using this
      · rename_i hok
        simp only at hx
        injection hx with hx
        subst hx
        simp [hguard, hok]
    · rename_i hguard
      have := ih seen hx
      simpa [hguard] using this

theorem seenFoldExc_no_err_eq (animateOk : Nat → Bool) (entries : List Entry)
    (seen : List Nat)
    (h : (seenFoldExc animateOk seen entries).2.2 = none) :
    (seenFoldExc animateOk seen entries).1 = (seenFold seen entries).1 ∧
      (seenFoldExc animateOk seen entries).2.1 = (seenFold seen entries).2 := by
  induction entries generalizing seen with
  | nil => simp [seenFoldExc, seenFold]
  | cons e rest ih =>
    unfold seenFoldExc at h ⊢
    unfold seenFold
    split at h
    · rename_i hguard
      split at h
      · rename_i hok
        simp only at h
        have := ih (e.target :: seen) h
        simp [hguard, hok, this.1, this.2]
      · simp at h
    · rename_i hguard
      have := ih seen h
      simp [hguard, this.1, this.2]

/-- C4 counterexample: with a batch of two intersecting elements `0` and `1`
where the primitive invocation for `0` throws, the thrown error aborts the
`forEach` iteration (JavaScript semantics, no `try`/`catch` in
`handleIntersection`), so element `1` is neither marked seen nor dispatched —
contradicting the claim that a failure for one element does not prevent the
remaining elements of the batch from being marked seen and dispatched. -/
theorem dispatch_failure_isolation_counterexample :
    (seenFoldExc (fun n => decide (n ≠ 0)) [] [⟨0, true⟩, ⟨1, true⟩]).2.2
        = some 0 ∧
      1 ∉ (seenFoldExc (fun n => decide (n ≠ 0)) [] [⟨0, true⟩, ⟨1, true⟩]).1 ∧
      1 ∉ (seenFoldExc (fun n => decide (n ≠ 0)) []
            [⟨0, true⟩, ⟨1, true⟩]).2.1 := by
  decide

theorem seenFoldExc_skip_seen (animateOk : Nat → Bool) (entries : List Entry)
    (seen : List Nat) (x : Nat) (hx : x ∈ seen) :
    x ∉ (seenFoldExc animateOk seen entries).2.1 := by
  induction entries generalizing seen with
  | nil => simp [seenFoldExc]
  | cons e rest ih =>
    unfold seenFoldExc
    split
    · rename_i hguard
      split
      · simp only [List.mem_cons, not_or]
        constructor
        · intro heq
          exact hguard.2 (heq ▸ hx)
        · exact ih (e.target :: seen) (List.mem_cons_of_mem _ hx)
      · simp
    · exact ih seen hx

/-- C4 amended: a thrown failure of the animation primitive aborts the rest
of the current callback batch (the error propagates out of
`entries.forEach`), but: (a) the element whose invocation threw had been
added to the seen set before the invocation, and so (b) it is never
dispatched again by any later batch (no refire); (c) everything already in
the seen set stays seen; (d) a subsequent callback batch is processed
independently — an element left unseen by the aborted batch is dispatched
when it intersects in a later batch and its own invocation succeeds; and
(e) a batch in which no invocation throws dispatches exactly what the plain
dispatcher does. -/
theorem dispatch_failure_aborts_batch_only
    (animateOk : Nat → Bool) (seen s2 : List Nat)
    (entries b2 good : List Entry) (x y z : Nat)
    (hx : (seenFoldExc animateOk seen entries).2.2 = some x)
    (hy : y ∈ seen)
    (hz : z ∉ (seenFoldExc animateOk seen entries).1)
    (hzok : animateOk z = true)
    (hgood : (seenFoldExc animateOk s2 good).2.2 = none) :
    (x ∈ (seenFoldExc animateOk seen entries).1 ∧ animateOk x = false) ∧
      x ∉ (seenFoldExc animateOk
            (seenFoldExc animateOk seen entries).1 b2).2.1 ∧
      y ∈ (seenFoldExc animateOk seen entries).1 ∧
      (seenFoldExc animateOk
          (seenFoldExc animateOk seen entries).1 [⟨z, true⟩]).2.1 = [z] ∧
      (seenFoldExc animateOk s2 good).2.1 = (seenFold s2 good).2 := by
  have herr := seenFoldExc_err_seen animateOk entries seen x hx
  refine ⟨herr,
    seenFoldExc_skip_seen animateOk b2 _ x herr.1,
    seenFoldExc_subset animateOk entries seen y hy, ?_,
    (seenFoldExc_no_err_eq animateOk good s2 hgood).2⟩
  simp [seenFoldExc, hz, hzok]

/-- Witness for `dispatch_failure_aborts_batch_only`: the primitive throws
for element `0`, aborting the batch before element `1`; the failed element
`0` is seen and is skipped when it re-enters in a later batch; the already
seen element `9` stays seen; element `1` is dispatched by the next batch;
and a throw-free batch over elements `1`, `2` dispatches exactly what the
plain dispatcher does. -/
theorem dispatch_failure_aborts_batch_only_witness :
    (0 ∈ (seenFoldExc (fun n => decide (n ≠ 0)) [9]
          [⟨0, true⟩, ⟨1, true⟩]).1 ∧
        decide ((0 : Nat) ≠ 0) = false) ∧
      0 ∉ (seenFoldExc (fun n => decide (n ≠ 0))
            (seenFoldExc (fun n => decide (n ≠ 0)) [9]
              [⟨0, true⟩, ⟨1, true⟩]).1 [⟨0, true⟩]).2.1 ∧
      9 ∈ (seenFoldExc (fun n => decide (n ≠ 0)) [9]
            [⟨0, true⟩, ⟨1, true⟩]).1 ∧
      (seenFoldExc (fun n => decide (n ≠ 0))
          (seenFoldExc (fun n => decide (n ≠ 0)) [9]
            [⟨0, true⟩, ⟨1, true⟩]).1 [⟨1, true⟩]).2.1 = [1] ∧
      (seenFoldExc (fun n => decide (n ≠ 0)) [] [⟨1, true⟩, ⟨2, true⟩]).2.1
        = (seenFold [] [⟨1, true⟩, ⟨2, true⟩]).2 :=
  dispatch_failure_aborts_batch_only (fun n => decide (n ≠ 0)) [9] []
    [⟨0, true⟩, ⟨1, true⟩] [⟨0, true⟩] [⟨1, true⟩, ⟨2, true⟩] 0 9 1
    (by decide) (by decide) (by decide) (by decide) (by decide)

-- ## Observer configurations (C8)

/-- Configuration passed to an `IntersectionObserver`: the visibility
threshold and the bottom component of the root margin, in pixels. -/
structure ObserverConfig where
  threshold : ℚ
  rootMarginBottomPx : Int
deriving DecidableEq, Repr

/-- Options of the entrance observer (`part_000` lines 9–15):
`threshold: 0.1, rootMargin: '0px 0px -50px 0px'`. -/
def entranceObserverConfig : ObserverConfig := ⟨1/10, -50⟩

/-- Options of the stagger observer (`part_000` line 132):
`threshold: 0.15, rootMargin: '0px 0px -30px 0px'`. -/
def staggerObserverConfig : ObserverConfig := ⟨3/20, -30⟩

theorem observer_configs_distinct :
    entranceObserverConfig ≠ staggerObserverConfig := by
  intro h
  have hth := congrArg ObserverConfig.threshold h
  norm_num [entranceObserverConfig, staggerObserverConfig] at hth

/-- C8 counterexample: the two triggers do NOT have disjoint seen-tracking
scopes.  Element `7` dispatched by the entrance callback is recorded in the
shared `animatedElements` set, and the stagger callback then skips it: its
reveal is suppressed, whereas from the empty set the stagger callback would
have dispatched it. -/
theorem trigger_scopes_disjoint_counterexample :
    (staggerCallback (handleIntersection initialController [⟨7, true⟩]).1
        [⟨7, true⟩]).2 = [] ∧
      (staggerCallback initialController [⟨7, true⟩]).2 = [7] := by
  decide

/-- C8 amended: the entrance trigger and the stagger trigger are two observer
instances with distinct configurations (threshold 0.1 / bottom margin −50px
versus threshold 0.15 / bottom margin −30px), but they share one seen set —
the controller's single `animatedElements` field — so an element marked seen
by either trigger is suppressed in both: the claimed disjointness of the two
dedup scopes does not hold. -/
theorem trigger_scopes_shared_set
    (c : Controller) (e1 e2 : List Entry) (x : Nat)
    (hx : x ∈ c.animatedElements) :
    entranceObserverConfig ≠ staggerObserverConfig ∧
      x ∉ (staggerCallback (handleIntersection c e1).1 e2).2 ∧
      x ∉ (handleIntersection (staggerCallback c e1).1 e2).2 := by
  refine ⟨observer_configs_distinct, ?_, ?_⟩
  · exact seenFold_skip_seen e2 _ x
      (seenFold_subset e1 c.animatedElements x hx)
  · exact seenFold_skip_seen e2 _ x
      (seenFold_subset e1 c.animatedElements x hx)

/-- Witness for `trigger_scopes_shared_set` at element `7` already seen. -/
theorem trigger_scopes_shared_set_witness :
    entranceObserverConfig ≠ staggerObserverConfig ∧
      7 ∉ (staggerCallback (handleIntersection ⟨[7]⟩ [⟨7, true⟩]).1
            [⟨7, true⟩]).2 ∧
      7 ∉ (handleIntersection (staggerCallback ⟨[7]⟩ [⟨7, true⟩]).1
            [⟨7, true⟩]).2 :=
  trigger_scopes_shared_set ⟨[7]⟩ [⟨7, true⟩] [⟨7, true⟩] 7 (by decide)

-- ## Models of the JavaScript numeric/string builtins used by the source

/-- The decimal digit character for a value below ten (rendering model of the
digits produced by JavaScript number-to-string conversion). -/
def decDigit (n : Nat) : Char :=
  if n = 0 then '0' else if n = 1 then '1' else if n = 2 then '2'
  else if n = 3 then '3' else if n = 4 then '4' else if n = 5 then '5'
  else if n = 6 then '6' else if n = 7 then '7' else if n = 8 then '8'
  else '9'

/-- Decimal rendering of a natural number, most significant digit first
(fuel-driven so that it reduces definitionally; `n + 1` fuel always
suffices since a number has at most `n + 1` digits). -/
def natDigitsAux (fuel : Nat) (n : Nat) : List Char :=
  match fuel with
  | 0 => []
  | fuel + 1 =>
    if n < 10 then [decDigit n]
    else natDigitsAux fuel (n / 10) ++ [decDigit (n % 10)]

/-- Decimal rendering of a natural number (model of JS `toString` on a
nonnegative integer value). -/
def natDigits (n : Nat) : List Char := natDigitsAux (n + 1) n

/-- Rendering of an integer (model of JS `toString` on an integer value). -/
def intRepr (i : Int) : String :=
  if i < 0 then ⟨'-' :: natDigits (-i).toNat⟩ else ⟨natDigits i.toNat⟩

/-- Splits a leading run of decimal digits off a character list, returning
their values most significant first together with the rest. -/
def takeDigits : List Char → List Nat × List Char
  | [] => ([], [])
  | c :: cs =>
    if '0' ≤ c ∧ c ≤ '9' then
      (((c.toNat - 48) :: (takeDigits cs).1), (takeDigits cs).2)
    else ([], c :: cs)

/-- Numeric value of a digit run, most significant first. -/
def digitsVal (ds : List Nat) : Nat := ds.foldl (fun a d => a * 10 + d) 0

/-- Strips an optional sign, returning whether the value is negated. -/
def stripSign : List Char → Bool × List Char
  | '-' :: r => (true, r)
  | '+' :: r => (false, r)
  | r => (false, r)

/-- Model of JavaScript `parseInt` (radix 10): skip leading spaces, optional
sign, then a leading run of decimal digits; `none` models `NaN` (no digits).
Non-finite literals (`Infinity`) and exotic whitespace are not modelled. -/
def parseIntJS (s : String) : Option Int :=
  match stripSign (s.data.dropWhile (· = ' ')) with
  | (neg, cs) =>
    if (takeDigits cs).1 = [] then none
    else some ((if neg then -1 else 1) * (digitsVal (takeDigits cs).1 : Int))

/-- The discrete part of JavaScript `parseFloat`: skip leading spaces,
optional sign, integer digits, optionally a decimal point and fraction
digits; trailing garbage is ignored; `none` models `NaN`.  Returns the sign,
the integer-part value, the fraction-part value, and the number of fraction
digits. -/
def parseDecimal (s : String) : Option (Bool × Nat × Nat × Nat) :=
  match stripSign (s.data.dropWhile (· = ' ')) with
  | (neg, cs) =>
    match (takeDigits cs).2 with
    | '.' :: r2 =>
      if (takeDigits cs).1 = [] ∧ (takeDigits r2).1 = [] then none
      else some (neg, digitsVal (takeDigits cs).1,
        digitsVal (takeDigits r2).1, (takeDigits r2).1.length)
    | _ =>
      if (takeDigits cs).1 = [] then none
      else some (neg, digitsVal (takeDigits cs).1, 0, 0)

/-- Model of JavaScript `parseFloat`: the numeric value of the parsed decimal
literal; `none` models `NaN`.  Non-finite literals (`Infinity`) are not
modelled. -/
def parseFloatJS (s : String) : Option ℚ :=
  (parseDecimal s).map (fun r =>
    (if r.1 then (-1 : ℚ) else 1) *
      ((r.2.1 : ℚ) + (r.2.2.1 : ℚ) / 10 ^ r.2.2.2))

/-- The JavaScript `x || 'd'` idiom on an optional attribute string: an absent
attribute (`undefined`) and the empty string are both falsy and replaced by
the default literal. -/
def orDefault (a : Option String) (d : String) : String :=
  match a with
  | none => d
  | some s => if s = "" then d else s

/-- `parseInt(attr || 'd')` as it appears throughout the source. -/
def parseIntAttr (a : Option String) (d : String) : Option Int :=
  parseIntJS (orDefault a d)

/-- Model of JavaScript `Math.round`: round half towards positive infinity. -/
def jsRound (q : ℚ) : Int := ⌊q + 1/2⌋

/-- Model of JavaScript `Number.prototype.toFixed(1)` (for values well below
`10^21`): round the magnitude to tenths, half away from zero, and print with
exactly one digit after the decimal point. -/
def toFixed1 (q : ℚ) : String :=
  if q < 0 then
    ⟨'-' :: (natDigits ((⌊-q * 10 + 1/2⌋).toNat / 10) ++
      ['.'] ++ natDigits ((⌊-q * 10 + 1/2⌋).toNat % 10))⟩
  else
    ⟨natDigits ((⌊q * 10 + 1/2⌋).toNat / 10) ++
      ['.'] ++ natDigits ((⌊q * 10 + 1/2⌋).toNat % 10)⟩

-- ## Digit-rendering lemmas

theorem decDigit_is_digit (n : Nat) :
    48 ≤ (decDigit n).toNat ∧ (decDigit n).toNat ≤ 57 := by
  unfold decDigit
  split_ifs <;> decide

theorem natDigitsAux_digits (fuel n : Nat) :
    ∀ c ∈ natDigitsAux fuel n, 48 ≤ c.toNat ∧ c.toNat ≤ 57 := by
  induction fuel generalizing n with
  | zero => simp [natDigitsAux]
  | succ fuel ih =>
    intro c hc
    unfold natDigitsAux at hc
    split at hc
    · simp at hc
      subst hc
      exact decDigit_is_digit n
    · simp only [List.mem_append, List.mem_singleton] at hc
      rcases hc with hc | hc
      · exact ih (n / 10) c hc
      · subst hc
        exact decDigit_is_digit (n % 10)

theorem natDigits_digits (n : Nat) :
    ∀ c ∈ natDigits n, 48 ≤ c.toNat ∧ c.toNat ≤ 57 :=
  natDigitsAux_digits (n + 1) n

theorem natDigits_no_dot (n : Nat) : '.' ∉ natDigits n := by
  intro h
  have := natDigits_digits n '.' h
  simp at this

theorem natDigits_lt_ten (n : Nat) (h : n < 10) :
    natDigits n = [decDigit n] := by
  unfold natDigits natDigitsAux
  simp [h]

-- ## Entrance dispatcher (C2, C5)

/-- The dataset attributes of an element carrying the `data-animate` opt-in:
`data-animate`, `data-delay`, `data-duration` (absent attribute = `none`). -/
structure AnimElem where
  animate : Option String
  delay : Option String
  duration : Option String
deriving DecidableEq, Repr

/-- Easing passed to the Motion One `animate` primitive: either a named curve
or a `spring({ stiffness, damping })` value. -/
inductive Easing where
  | named (curve : String)
  | springFn (stiffness damping : ℚ)
deriving DecidableEq, Repr

/-- One Motion One `animate(element, keyframes, options)` invocation of the
entrance dispatcher: the property keyframes and the timing options.
`durationS`/`delayS` are in seconds (`none` models `NaN` from an unparsable
attribute). -/
structure MotionCall where
  opacity : Option (ℚ × ℚ)
  transform : Option (String × String)
  filter : Option (String × String)
  durationS : Option ℚ
  delayS : Option ℚ
  easing : Easing
deriving DecidableEq, Repr

/-- The resolved per-element options of the entrance dispatcher
(spec: `animationKind` default `fade-up`, `delayMs` default 0, `durationMs`
default 800, converted once to the primitive's unit).  `animationKind` is the
key actually used for the preset lookup (`animations[animationType ||
'fade-up']`). -/
structure EntranceOptions where
  animationKind : String
  delayS : Option ℚ
  durationS : Option ℚ
deriving DecidableEq, Repr

/-- Option resolution of `animateElement` in `part_000` (lines 53–56):
`delay = parseInt(element.dataset.delay || '0') / 1000`,
`duration = parseInt(element.dataset.duration || '800') / 1000`, and the
lookup key `element.dataset.animate || 'fade-up'`. -/
def resolveMotionOptions (e : AnimElem) : EntranceOptions :=
  ⟨orDefault e.animate "fade-up",
    (parseIntAttr e.delay "0").map (fun k => (k : ℚ) / 1000),
    (parseIntAttr e.duration "800").map (fun k => (k : ℚ) / 1000)⟩

/-- Option resolution of `animateElement` in the minimal variant
(`scroll-animations.ts` lines 52–56): the delay is read as in `part_000`, but
`const duration = 0.3` is hard-coded ("Minimal 300ms duration") — the
`data-duration` attribute is never read. -/
def resolveMinimalOptions (e : AnimElem) : EntranceOptions :=
  ⟨orDefault e.animate "fade-up",
    (parseIntAttr e.delay "0").map (fun k => (k : ℚ) / 1000),
    some (3 / 10)⟩

/-- The `animations` preset table of `animateElement` in `part_000`
(lines 59–108), parameterised by the resolved duration and delay exactly as
the source closes over them. -/
def motionAnimations (dur del : Option ℚ) : List (String × MotionCall) :=
  [("fade-up", ⟨some (0, 1), some ("translateY(60px)", "translateY(0px)"),
      none, dur, del, .named "ease-out"⟩),
   ("fade-down", ⟨some (0, 1), some ("translateY(-60px)", "translateY(0px)"),
      none, dur, del, .named "ease-out"⟩),
   ("fade-left", ⟨some (0, 1), some ("translateX(60px)", "translateX(0px)"),
      none, dur, del, .named "ease-out"⟩),
   ("fade-right", ⟨some (0, 1), some ("translateX(-60px)", "translateX(0px)"),
      none, dur, del, .named "ease-out"⟩),
   ("zoom-in", ⟨some (0, 1), some ("scale(0.8)", "scale(1)"),
      none, dur, del, .named "ease-out"⟩),
   ("zoom-out", ⟨some (0, 1), some ("scale(1.1)", "scale(1)"),
      none, dur, del, .named "ease-out"⟩),
   ("flip-up", ⟨some (0, 1),
      some ("perspective(1000px) rotateX(90deg) translateY(40px)",
        "perspective(1000px) rotateX(0deg) translateY(0px)"),
      none, dur.map (· + 1/5), del, .named "ease-out"⟩),
   ("rotate-in", ⟨some (0, 1),
      some ("rotate(-10deg) scale(0.9)", "rotate(0deg) scale(1)"),
      none, dur, del, .springFn 300 20⟩),
   ("blur-in", ⟨some (0, 1), some ("translateY(30px)", "translateY(0px)"),
      some ("blur(10px)", "blur(0px)"), dur, del, .named "ease-out"⟩),
   ("slide-reveal", ⟨some (0, 1), some ("translateY(100px)", "translateY(0px)"),
      none, dur.map (· + 1/5), del, .named "ease-out"⟩),
   ("bounce-in", ⟨some (0, 1),
      some ("translateY(80px) scale(0.85)", "translateY(0px) scale(1)"),
      none, dur.map (· + 2/5), del, .springFn 200 15⟩),
   ("skew-in", ⟨some (0, 1),
      some ("skewY(6deg) translateY(40px)", "skewY(0deg) translateY(0px)"),
      none, dur, del, .named "ease-out"⟩)]

/-- Outcome of `animateElement` in `part_000` (lines 110–117): either one
`animate` invocation, or the fallback branch
(`element.style.opacity = '1'; element.style.transform = 'none'`). -/
inductive MotionDispatch where
  | animCall (call : MotionCall)
  | fallbackShow
deriving DecidableEq, Repr

/-- `animateElement` of `part_000` (lines 53–118): resolve options, look the
kind up in the table, run the animation if found, else take the fallback
branch.  A total function: no code path throws. -/
def animateElementMotion (e : AnimElem) : MotionDispatch :=
  match List.lookup (resolveMotionOptions e).animationKind
      (motionAnimations (resolveMotionOptions e).durationS
        (resolveMotionOptions e).delayS) with
  | some call => .animCall call
  | none => .fallbackShow

/-- The inline style of an element (the two properties the controller
touches). -/
structure ElemStyle where
  opacity : String
  transform : String
deriving DecidableEq, Repr

/-- The synchronous style effect of one `animateElement` dispatch in
`part_000` on the element's own inline style: the fallback branch writes
`opacity = '1'; transform = 'none'` (lines 114–116); the `animate` branch
mutates style only through the external primitive over time, so the inline
style at dispatch time is unchanged. -/
def motionStyleAfterDispatch (st : ElemStyle) (e : AnimElem) : ElemStyle :=
  match animateElementMotion e with
  | .animCall _ => st
  | .fallbackShow => ⟨"1", "none"⟩

/-- The initial style given to every `data-animate` element by
`setupObservers` in `part_000` (line 33) and in the anime.js variant
(`scroll-animations.ts` line 381): `style.opacity = '0'`. -/
def setupHiddenStyle : ElemStyle := ⟨"0", ""⟩

/-- One anime.js `anime({...})` parameter record as built by `animateElement`
of the anime.js variant (`scroll-animations.ts` lines 406–508).  Numeric
keyframe pairs are `[from, to]`; `durationMs`/`delayMs` are milliseconds. -/
structure AnimeParams where
  opacity : Option (ℚ × ℚ) := none
  translateX : Option (ℚ × ℚ) := none
  translateY : Option (ℚ × ℚ) := none
  scale : Option (ℚ × ℚ) := none
  rotate : Option (ℚ × ℚ) := none
  rotateX : Option (ℚ × ℚ) := none
  skewY : Option (ℚ × ℚ) := none
  filter : Option (String × String) := none
  durationMs : Option Int := none
  delayMs : Option Int := none
  easing : String := ""
deriving DecidableEq, Repr

/-- The `animations` table of `animateElement` in the anime.js variant
(`scroll-animations.ts` lines 406–508), parameterised by the resolved
duration and delay (`parseInt(...)`, milliseconds, no division). -/
def animeAnimations (dur del : Option Int) : List (String × AnimeParams) :=
  [("fade-up",
     { opacity := some (0, 1), translateY := some (60, 0),
       durationMs := dur, delayMs := del, easing := "easeOutExpo" }),
   ("fade-down",
     { opacity := some (0, 1), translateY := some (-60, 0),
       durationMs := dur, delayMs := del, easing := "easeOutExpo" }),
   ("fade-left",
     { opacity := some (0, 1), translateX := some (60, 0),
       durationMs := dur, delayMs := del, easing := "easeOutExpo" }),
   ("fade-right",
     { opacity := some (0, 1), translateX := some (-60, 0),
       durationMs := dur, delayMs := del, easing := "easeOutExpo" }),
   ("zoom-in",
     { opacity := some (0, 1), scale := some (4/5, 1),
       durationMs := dur, delayMs := del, easing := "easeOutExpo" }),
   ("zoom-out",
     { opacity := some (0, 1), scale := some (11/10, 1),
       durationMs := dur, delayMs := del, easing := "easeOutExpo" }),
   ("flip-up",
     { opacity := some (0, 1), rotateX := some (90, 0),
       translateY := some (40, 0), durationMs := dur.map (· + 200),
       delayMs := del, easing := "easeOutExpo" }),
   ("rotate-in",
     { opacity := some (0, 1), rotate := some (-10, 0),
       scale := some (9/10, 1), durationMs := dur, delayMs := del,
       easing := "easeOutElastic(1, 0.5)" }),
   ("blur-in",
     { opacity := some (0, 1),
       filter := some ("blur(10px)", "blur(0px)"), translateY := some (30, 0),
       durationMs := dur, delayMs := del, easing := "easeOutExpo" }),
   ("slide-reveal",
     { opacity := some (0, 1), translateY := some (100, 0),
       durationMs := dur.map (· + 200), delayMs := del,
       easing := "easeOutQuart" }),
   ("bounce-in",
     { opacity := some (0, 1), translateY := some (80, 0),
       scale := some (17/20, 1), durationMs := dur.map (· + 400),
       delayMs := del, easing := "easeOutElastic(1, 0.6)" }),
   ("skew-in",
     { opacity := some (0, 1), skewY := some (6, 0),
       translateY := some (40, 0), durationMs := dur, delayMs := del,
       easing := "easeOutQuart" })]

/-- Option resolution of `animateElement` in the anime.js variant
(`scroll-animations.ts` lines 402–404): raw milliseconds, defaults 0/800. -/
def resolveAnimeOptions (e : AnimElem) : String × Option Int × Option Int :=
  (orDefault e.animate "fade-up", parseIntAttr e.delay "0",
    parseIntAttr e.duration "800")

/-- `animateElement` of the anime.js variant (`scroll-animations.ts`
lines 401–514): `const animConfig = animations[animationType || 'fade-up'];
if (animConfig) { anime(animConfig); }` — and there is **no** `else` branch:
an unrecognized kind runs nothing. -/
def animateElementAnime (e : AnimElem) : Option AnimeParams :=
  List.lookup (resolveAnimeOptions e).1
    (animeAnimations (resolveAnimeOptions e).2.2 (resolveAnimeOptions e).2.1)

/-- The synchronous style effect of one `animateElement` dispatch in the
anime.js variant: the `if (animConfig)` guard either calls `anime` (which
mutates style only over time) or does nothing — neither branch touches the
element's inline style. -/
def animeStyleAfterDispatch (st : ElemStyle) (e : AnimElem) : ElemStyle :=
  match animateElementAnime e with
  | some _ => st
  | none => st

/-- The kind names present in the `part_000` preset table. -/
def motionPresetKeys : List String :=
  (motionAnimations none none).map Prod.fst

/-- The kind names present in the anime.js variant's preset table. -/
def animePresetKeys : List String :=
  (animeAnimations none none).map Prod.fst

theorem lookup_eq_none_of_not_mem {β : Type} (k : String)
    (l : List (String × β)) (h : k ∉ l.map Prod.fst) :
    List.lookup k l = none := by
  induction l with
  | nil => rfl
  | cons p rest ih =>
    obtain ⟨pk, pb⟩ := p
    simp only [List.map_cons, List.mem_cons, not_or] at h
    have hne : (k == pk) = false := beq_eq_false_iff_ne.mpr h.1
    simp [List.lookup, hne, ih h.2]

theorem motionAnimations_keys (dur del : Option ℚ) :
    (motionAnimations dur del).map Prod.fst = motionPresetKeys := rfl

theorem animeAnimations_keys (dur del : Option Int) :
    (animeAnimations dur del).map Prod.fst = motionPresetKeys := rfl

/-- C2 counterexample: in the anime.js variant (cited by the claim),
`setupObservers` hides every `data-animate` element (`opacity = '0'`), and an
element whose declared kind `"wobble"` is not in the preset table gets **no**
animation and **no** fallback (`if (animConfig)` has no `else`): its inline
opacity stays `'0'` — the element is left permanently hidden, contradicting
the claim. -/
theorem unrecognized_kind_fallback_counterexample :
    animateElementAnime ⟨some "wobble", none, none⟩ = none ∧
      animeStyleAfterDispatch setupHiddenStyle ⟨some "wobble", none, none⟩
        = setupHiddenStyle ∧
      setupHiddenStyle.opacity = "0" :=
  ⟨rfl, rfl, rfl⟩

/-- C2 (amended): for an element whose resolved kind is not in the preset
table, the two variants diverge.  In `part_000` the dispatcher takes the
fallback branch exactly once — a total, non-throwing path that sets the
element's opacity to `'1'` and transform to `'none'`, so an element hidden at
setup ends visible.  In the anime.js variant the lookup yields nothing, no
animation and no fallback runs, and an element hidden at setup keeps
`opacity = '0'`. -/
theorem unrecognized_kind_fallback_policy (e : AnimElem)
    (h : orDefault e.animate "fade-up" ∉ motionPresetKeys) :
    (animateElementMotion e = .fallbackShow ∧
        motionStyleAfterDispatch setupHiddenStyle e = ⟨"1", "none"⟩) ∧
      (animateElementAnime e = none ∧
        animeStyleAfterDispatch setupHiddenStyle e = setupHiddenStyle) := by
  have hm : List.lookup (resolveMotionOptions e).animationKind
      (motionAnimations (resolveMotionOptions e).durationS
        (resolveMotionOptions e).delayS) = none := by
    apply lookup_eq_none_of_not_mem
    rw [motionAnimations_keys]
    exact h
  have ha : animateElementAnime e = none := by
    apply lookup_eq_none_of_not_mem
    rw [animeAnimations_keys]
    exact h
  have hfall : animateElementMotion e = .fallbackShow := by
    simp [animateElementMotion, hm]
  refine ⟨⟨hfall, ?_⟩, ha, ?_⟩
  · simp [motionStyleAfterDispatch, hfall]
  · simp [animeStyleAfterDispatch, ha]

/-- Witness for `unrecognized_kind_fallback_policy` at kind `"wobble"`. -/
theorem unrecognized_kind_fallback_policy_witness :
    (animateElementMotion ⟨some "wobble", none, none⟩ = .fallbackShow ∧
        motionStyleAfterDispatch setupHiddenStyle ⟨some "wobble", none, none⟩
          = ⟨"1", "none"⟩) ∧
      (animateElementAnime ⟨some "wobble", none, none⟩ = none ∧
        animeStyleAfterDispatch setupHiddenStyle ⟨some "wobble", none, none⟩
          = setupHiddenStyle) :=
  unrecognized_kind_fallback_policy ⟨some "wobble", none, none⟩ (by decide)

/-- C5 counterexample: the minimal Motion variant (cited by the claim) hard-
codes `const duration = 0.3` — with a `data-duration="500"` attribute the
resolved duration is still 0.3 s, not the claimed 0.5 s, and with no
attribute it is 0.3 s, not the claimed 800 ms. -/
theorem entrance_duration_resolution_counterexample :
    (resolveMinimalOptions ⟨none, none, some "500"⟩).durationS = some (3/10) ∧
      ((3 : ℚ)/10) ≠ ((500 : ℚ)/1000) ∧
      (resolveMinimalOptions ⟨none, none, none⟩).durationS = some (3/10) ∧
      ((3 : ℚ)/10) ≠ ((800 : ℚ)/1000) :=
  ⟨rfl, by norm_num, rfl, by norm_num⟩

/-- C5 (amended): in `part_000` option resolution behaves as claimed — kind
attribute with default `fade-up`, delay attribute with default 0, duration
attribute with default 800 ms, converted once at the boundary (divided by
1000 into the seconds Motion One expects); in the minimal Motion variant the
duration is a fixed 0.3 s and the duration attribute is ignored. -/
theorem entrance_option_resolution
    (e d : AnimElem) (s : String) (k : Int)
    (hea : e.animate = none) (hed : e.delay = none) (heu : e.duration = none)
    (hds : d.duration = some s) (hk : parseIntJS s = some k) :
    (resolveMotionOptions e).animationKind = "fade-up" ∧
      (resolveMotionOptions e).delayS = some 0 ∧
      (resolveMotionOptions e).durationS = some (800 / 1000) ∧
      (resolveMotionOptions d).durationS = some ((k : ℚ) / 1000) ∧
      (resolveMinimalOptions e).durationS = some (3 / 10) ∧
      (resolveMinimalOptions d).durationS = some (3 / 10) := by
  have hp0 : parseIntJS "0" = some 0 := by decide
  have hp800 : parseIntJS "800" = some 800 := by decide
  refine ⟨?_, ?_, ?_, ?_, rfl, rfl⟩
  · simp [resolveMotionOptions, orDefault, hea]
  · simp [resolveMotionOptions, parseIntAttr, orDefault, hed, hp0]
  · simp [resolveMotionOptions, parseIntAttr, orDefault, heu, hp800]
  · by_cases hse : s = ""
    · subst hse
      have hnone : parseIntJS "" = none := rfl
      rw [hnone] at hk
      cases hk
    · simp [resolveMotionOptions, parseIntAttr, orDefault, hds, hse, hk]

/-- Witness for `entrance_option_resolution`: an attribute-free element and an
element with `data-duration="500"`. -/
theorem entrance_option_resolution_witness :
    (resolveMotionOptions ⟨none, none, none⟩).animationKind = "fade-up" ∧
      (resolveMotionOptions ⟨none, none, none⟩).delayS = some 0 ∧
      (resolveMotionOptions ⟨none, none, none⟩).durationS = some (800 / 1000) ∧
      (resolveMotionOptions ⟨none, none, some "500"⟩).durationS
        = some (((500 : Int) : ℚ) / 1000) ∧
      (resolveMinimalOptions ⟨none, none, none⟩).durationS = some (3 / 10) ∧
      (resolveMinimalOptions ⟨none, none, some "500"⟩).durationS
        = some (3 / 10) :=
  entrance_option_resolution ⟨none, none, none⟩ ⟨none, none, some "500"⟩
    "500" 500 rfl rfl rfl rfl (by decide)

-- ## Stagger dispatcher (C3)

/-- A `data-stagger` container: its `[data-stagger-item]` descendants in
document order (the order `querySelectorAll` returns them in), plus the
`data-stagger-delay` and `data-stagger` attributes. -/
structure StaggerContainer where
  children : List Nat
  staggerDelay : Option String
  stagger : Option String
deriving DecidableEq, Repr

/-- One entry of a stagger `baseConfig` table: the property keyframes a group
animates (fewer properties than the entrance presets). -/
structure StaggerKeyframes where
  opacity : Option (ℚ × ℚ)
  transform : String × String
deriving DecidableEq, Repr

/-- The `baseConfig` table of `animateStaggerChildren` in `part_000`
(lines 149–178). -/
def staggerBaseConfigMotion : List (String × StaggerKeyframes) :=
  [("fade-up", ⟨some (0, 1), ("translateY(50px)", "translateY(0px)")⟩),
   ("fade-down", ⟨some (0, 1), ("translateY(-50px)", "translateY(0px)")⟩),
   ("zoom-in", ⟨some (0, 1), ("scale(0.8)", "scale(1)")⟩),
   ("slide-left", ⟨some (0, 1), ("translateX(60px)", "translateX(0px)")⟩),
   ("slide-right", ⟨some (0, 1), ("translateX(-60px)", "translateX(0px)")⟩),
   ("rotate-stagger", ⟨some (0, 1),
      ("rotate(-15deg) translateY(40px)", "rotate(0deg) translateY(0px)")⟩),
   ("cascade", ⟨some (0, 1),
      ("translateY(80px) translateX(-30px) rotate(-5deg)",
        "translateY(0px) translateX(0px) rotate(0deg)")⟩)]

/-- The `baseConfig` table of `animateStaggerChildren` in the minimal Motion
variant (`scroll-animations.ts` lines 143–165): transforms only, no opacity
keyframes. -/
def staggerBaseConfigMinimal : List (String × StaggerKeyframes) :=
  [("fade-up", ⟨none, ("translateY(10px)", "translateY(0px)")⟩),
   ("fade-down", ⟨none, ("translateY(-10px)", "translateY(0px)")⟩),
   ("zoom-in", ⟨none, ("scale(0.98)", "scale(1)")⟩),
   ("slide-left", ⟨none, ("translateX(10px)", "translateX(0px)")⟩),
   ("slide-right", ⟨none, ("translateX(-10px)", "translateX(0px)")⟩),
   ("rotate-stagger", ⟨none, ("translateY(10px)", "translateY(0px)")⟩),
   ("cascade", ⟨none, ("translateY(10px)", "translateY(0px)")⟩)]

/-- `const config = baseConfig[animationType] || baseConfig['fade-up']`:
lookup with fallback to the `fade-up` entry (the inert third alternative is
unreachable since both tables contain `"fade-up"`). -/
def staggerConfigOf (tbl : List (String × StaggerKeyframes)) (key : String) :
    StaggerKeyframes :=
  match List.lookup key tbl with
  | some cfg => cfg
  | none => (List.lookup "fade-up" tbl).getD ⟨none, ("", "")⟩

/-- The single Motion One `animate(children, config, {...})` invocation a
stagger dispatch issues: the full ordered child collection, the group
keyframes, the batch duration in seconds, the per-item incremental delay step
(seconds), and the easing. -/
structure StaggerCall where
  targets : List Nat
  config : StaggerKeyframes
  durationS : ℚ
  itemDelayS : Option ℚ
  easing : String
deriving DecidableEq, Repr

/-- The delay Motion One's `stagger(d)` assigns to the child at index `i`:
`i × d`. -/
def staggerDelayAt (call : StaggerCall) (i : Nat) : Option ℚ :=
  call.itemDelayS.map (fun d => i * d)

/-- `animateStaggerChildren` of `part_000` (lines 140–191): enumerate the
`[data-stagger-item]` children in document order, read
`parseInt(container.dataset.staggerDelay || '100')` and
`container.dataset.stagger || 'fade-up'`, set the children's opacity to 0,
and issue exactly one `animate` call with `duration: 0.8` and
`delay: stagger(staggerDelayMs / 1000)`.  The returned value is that one
invocation. -/
def animateStaggerChildrenMotion (c : StaggerContainer) : StaggerCall :=
  ⟨c.children,
    staggerConfigOf staggerBaseConfigMotion (orDefault c.stagger "fade-up"),
    8/10,
    (parseIntAttr c.staggerDelay "100").map (fun k => (k : ℚ) / 1000),
    "ease-out"⟩

/-- `animateStaggerChildren` of the minimal Motion variant
(`scroll-animations.ts` lines 136–178): same shape, but
`const staggerDelayMs = 30` is hard-coded ("Minimal 30ms stagger") — the
`data-stagger-delay` attribute is never read — and `duration: 0.2`. -/
def animateStaggerChildrenMinimal (c : StaggerContainer) : StaggerCall :=
  ⟨c.children,
    staggerConfigOf staggerBaseConfigMinimal (orDefault c.stagger "fade-up"),
    2/10,
    some ((30 : ℚ) / 1000),
    "ease-out"⟩

/-- C3 counterexample: in the minimal Motion variant (cited by the claim),
a container declaring `data-stagger-delay="100"` still gets a per-item delay
step of 30 ms: the child at index 1 is delayed 0.03 s, not the claimed
1 × 100 ms = 0.1 s. -/
theorem stagger_delay_counterexample :
    staggerDelayAt (animateStaggerChildrenMinimal ⟨[10, 11], some "100", none⟩)
        1 = some (30/1000) ∧
      ((30 : ℚ)/1000) ≠ ((100 : ℚ)/1000) ∧
      (animateStaggerChildrenMinimal ⟨[10, 11], some "100", none⟩).targets
        = [10, 11] := by
  refine ⟨?_, by norm_num, rfl⟩
  simp [staggerDelayAt, animateStaggerChildrenMinimal]

/-- C3 (amended): both variants issue exactly one animation call over the
children in document order (the embedding returns the single `animate`
invocation the function makes, with `targets` the ordered child list).  In
`part_000` the per-item delay at document-order index `i` is
`i × itemDelayMs` converted to seconds, with `itemDelayMs` read from the
`data-stagger-delay` attribute and 100 ms when absent, as the claim states;
in the minimal Motion variant the attribute is ignored and the step is a
fixed 30 ms. -/
theorem stagger_delay_resolution
    (c cd : StaggerContainer) (s : String) (k : Int) (i : Nat)
    (hc : c.staggerDelay = none) (hd : cd.staggerDelay = some s)
    (hk : parseIntJS s = some k) :
    (animateStaggerChildrenMotion c).targets = c.children ∧
      staggerDelayAt (animateStaggerChildrenMotion c) i
        = some (i * ((100 : ℚ) / 1000)) ∧
      (animateStaggerChildrenMotion cd).targets = cd.children ∧
      staggerDelayAt (animateStaggerChildrenMotion cd) i
        = some (i * ((k : ℚ) / 1000)) ∧
      (animateStaggerChildrenMinimal c).targets = c.children ∧
      staggerDelayAt (animateStaggerChildrenMinimal c) i
        = some (i * ((30 : ℚ) / 1000)) ∧
      staggerDelayAt (animateStaggerChildrenMinimal cd) i
        = some (i * ((30 : ℚ) / 1000)) := by
  have hp100 : parseIntJS "100" = some 100 := by decide
  refine ⟨rfl, ?_, rfl, ?_, rfl, ?_, ?_⟩
  · simp [staggerDelayAt, animateStaggerChildrenMotion, parseIntAttr,
      orDefault, hc, hp100]
  · by_cases hse : s = ""
    · subst hse
      have hnone : parseIntJS "" = none := rfl
      rw [hnone] at hk
      cases hk
    · simp [staggerDelayAt, animateStaggerChildrenMotion, parseIntAttr,
        orDefault, hd, hse, hk]
  · simp [staggerDelayAt, animateStaggerChildrenMinimal]
  · simp [staggerDelayAt, animateStaggerChildrenMinimal]

/-- Witness for `stagger_delay_resolution`: an attribute-free container and
one with `data-stagger-delay="250"`, at child index 2. -/
theorem stagger_delay_resolution_witness :
    (animateStaggerChildrenMotion ⟨[3, 4, 5], none, none⟩).targets
        = [3, 4, 5] ∧
      staggerDelayAt (animateStaggerChildrenMotion ⟨[3, 4, 5], none, none⟩) 2
        = some (2 * ((100 : ℚ) / 1000)) ∧
      (animateStaggerChildrenMotion ⟨[6, 7], some "250", none⟩).targets
        = [6, 7] ∧
      staggerDelayAt (animateStaggerChildrenMotion ⟨[6, 7], some "250", none⟩)
        2 = some (2 * (((250 : Int) : ℚ) / 1000)) ∧
      (animateStaggerChildrenMinimal ⟨[3, 4, 5], none, none⟩).targets
        = [3, 4, 5] ∧
      staggerDelayAt (animateStaggerChildrenMinimal ⟨[3, 4, 5], none, none⟩) 2
        = some (2 * ((30 : ℚ) / 1000)) ∧
      staggerDelayAt (animateStaggerChildrenMinimal ⟨[6, 7], some "250", none⟩)
        2 = some (2 * ((30 : ℚ) / 1000)) :=
  stagger_delay_resolution ⟨[3, 4, 5], none, none⟩ ⟨[6, 7], some "250", none⟩
    "250" 250 2 rfl rfl (by decide)

-- ## Counter animation (C6)

/-- The text written by one frame of the counter animation in
`setupCounterAnimations` (`part_000` lines 310–323 / `scroll-animations.ts`
lines 263–276): `if (!isNaN(parseFloat(endValue)))`, with
`isFloat = endValue.includes('.')` and `numericEnd = parseFloat(endValue)`,
each progress tick writes `isFloat ? (progress*numericEnd).toFixed(1)
: Math.round(progress*numericEnd).toString()`; a non-numeric target skips the
animation entirely (`none`). -/
def counterTick (endValue : String) (progress : ℚ) : Option String :=
  match parseFloatJS endValue with
  | none => none
  | some numericEnd =>
    some (if endValue.data.contains '.' then toFixed1 (progress * numericEnd)
      else intRepr (jsRound (progress * numericEnd)))

/-- A decimal digit character. -/
def isDigitCh (c : Char) : Prop := 48 ≤ c.toNat ∧ c.toNat ≤ 57

/-- A string formatted with exactly one decimal place: everything before a
single decimal point, then exactly one digit. -/
def oneDecimalPlace (s : String) : Prop :=
  ∃ pre d, s.data = pre ++ ['.', d] ∧ '.' ∉ pre ∧ isDigitCh d

theorem toFixed1_oneDecimalPlace (q : ℚ) : oneDecimalPlace (toFixed1 q) := by
  have hmod : ∀ n : Nat, n % 10 < 10 := fun n => Nat.mod_lt n (by norm_num)
  unfold toFixed1
  split
  · refine ⟨'-' :: natDigits ((⌊-q * 10 + 1/2⌋).toNat / 10),
      decDigit ((⌊-q * 10 + 1/2⌋).toNat % 10), ?_, ?_, decDigit_is_digit _⟩
    · rw [natDigits_lt_ten _ (hmod _)]
      simp
    · intro hmem
      simp only [List.mem_cons] at hmem
      rcases hmem with h | h
      · exact absurd h (by decide)
      · exact natDigits_no_dot _ h
  · refine ⟨natDigits ((⌊q * 10 + 1/2⌋).toNat / 10),
      decDigit ((⌊q * 10 + 1/2⌋).toNat % 10), ?_, natDigits_no_dot _,
      decDigit_is_digit _⟩
    rw [natDigits_lt_ten _ (hmod _)]
    simp

theorem intRepr_no_dot (i : Int) : '.' ∉ (intRepr i).data := by
  unfold intRepr
  split
  · intro hmem
    simp only [List.mem_cons] at hmem
    rcases hmem with h | h
    · exact absurd h (by decide)
    · exact natDigits_no_dot _ h
  · exact natDigits_no_dot _

theorem parseFloatJS_42 : parseFloatJS "42" = some 42 := by
  have h : parseDecimal "42" = some (false, 42, 0, 0) := by decide
  simp [parseFloatJS, h]

theorem parseFloatJS_35 : parseFloatJS "3.5" = some (7/2) := by
  have h : parseDecimal "3.5" = some (false, 3, 5, 1) := by decide
  simp [parseFloatJS, h]
  norm_num

theorem counterTick_42_final : counterTick "42" 1 = some "42" := by
  have hc : ("42".data.contains '.') = false := by decide
  have hr : jsRound ((1 : ℚ) * 42) = 42 := by
    norm_num [jsRound, Int.floor_eq_iff]
  simp only [counterTick, parseFloatJS_42, hc, Bool.false_eq_true,
    if_false, hr]
  decide

theorem counterTick_35_final : counterTick "3.5" 1 = some "3.5" := by
  have hc : ("3.5".data.contains '.') = true := by decide
  have htf : toFixed1 ((1 : ℚ) * (7/2)) = "3.5" := by
    have h35 : (⌊(1 : ℚ) * (7/2) * 10 + 1/2⌋) = 35 := by
      norm_num [Int.floor_eq_iff]
    rw [toFixed1, if_neg (by norm_num), h35]
    decide
  simp only [counterTick, parseFloatJS_35, hc, if_true, htf]

/-- C6: counter formatting.  For the target literal `"42"` the final
displayed text (progress 1) is `"42"`.  For `"3.5"` the final text is
`"3.5"`.  For any numeric target containing a decimal point, every
intermediate and final displayed value is formatted with exactly one decimal
place; for any numeric target without a decimal point every displayed value
is the rounded integer, containing no decimal point; a non-numeric target
skips the animation without raising (the model is a total function returning
`none`). -/
theorem counter_formatting
    (t u n : String) (v w p : ℚ)
    (hv : parseFloatJS t = some v) (ht : t.data.contains '.' = true)
    (hw : parseFloatJS u = some w) (hu : u.data.contains '.' = false)
    (hn : parseFloatJS n = none) :
    counterTick "42" 1 = some "42" ∧
      counterTick "3.5" 1 = some "3.5" ∧
      (∃ s, counterTick t p = some s ∧ oneDecimalPlace s) ∧
      counterTick u p = some (intRepr (jsRound (p * w))) ∧
      '.' ∉ (intRepr (jsRound (p * w))).data ∧
      counterTick n p = none := by
  refine ⟨counterTick_42_final, counterTick_35_final,
    ⟨toFixed1 (p * v), ?_, toFixed1_oneDecimalPlace _⟩, ?_,
    intRepr_no_dot _, ?_⟩
  · simp only [counterTick, hv, ht, if_true]
  · simp only [counterTick, hw, hu, Bool.false_eq_true, if_false]
  · simp [counterTick, hn]

/-- Witness for `counter_formatting`: targets `"3.5"`, `"42"` and the
non-numeric `"abc"`, at progress 1/2. -/
theorem counter_formatting_witness :
    counterTick "42" 1 = some "42" ∧
      counterTick "3.5" 1 = some "3.5" ∧
      (∃ s, counterTick "3.5" (1/2) = some s ∧ oneDecimalPlace s) ∧
      counterTick "42" (1/2) = some (intRepr (jsRound ((1/2 : ℚ) * 42))) ∧
      '.' ∉ (intRepr (jsRound ((1/2 : ℚ) * 42))).data ∧
      counterTick "abc" (1/2) = none :=
  counter_formatting "3.5" "42" "abc" (7/2) 42 (1/2)
    parseFloatJS_35 (by decide) parseFloatJS_42 (by decide) rfl

-- ## Parallax frame coalescing (C7)

/-- The state of the parallax scroll throttle (`part_000` lines 221–231 /
`scroll-animations.ts` lines 208–218): the `ticking` flag, the number of
`requestAnimationFrame` callbacks currently scheduled, and the total number
of `handleScroll` recomputations run so far. -/
structure PState where
  ticking : Bool
  pending : Nat
  recomputes : Nat
deriving DecidableEq, Repr

/-- The inputs of the throttle: a `scroll` event arriving, or the browser
rendering a frame (which runs every scheduled callback; each callback calls
`handleScroll()` and clears `ticking`). -/
inductive PEvent where
  | scroll
  | frame
deriving DecidableEq, Repr

/-- One step of the throttle.  On `scroll`: if `ticking` is set the event is
dropped; otherwise one frame callback is scheduled and `ticking` is set.  On
`frame`: every scheduled callback runs `handleScroll` once and sets
`ticking = false`. -/
def pstep (s : PState) : PEvent → PState
  | .scroll =>
    if s.ticking then s
    else { ticking := true, pending := s.pending + 1,
           recomputes := s.recomputes }
  | .frame =>
    { ticking := if s.pending = 0 then s.ticking else false,
      pending := 0,
      recomputes := s.recomputes + s.pending }

/-- Throttle state at listener installation: flag clear, nothing scheduled. -/
def pInit : PState := ⟨false, 0, 0⟩

/-- Running the throttle over a sequence of events. -/
def prun (evs : List PEvent) : PState := evs.foldl pstep pInit

/-- The coalescing invariant: there is exactly one outstanding frame callback
when `ticking` is set and none otherwise. -/
def pInv (s : PState) : Prop := s.pending = (if s.ticking then 1 else 0)

theorem pstep_inv (s : PState) (e : PEvent) (h : pInv s) : pInv (pstep s e) := by
  cases e with
  | scroll =>
    by_cases ht : s.ticking = true
    · simpa [pstep, ht] using h
    · unfold pInv at h
      simp [ht] at h
      simp [pstep, pInv, ht, h]
  | frame =>
    by_cases hp : s.pending = 0
    · have hti : s.ticking = false := by
        cases hb : s.ticking
        · rfl
        · exfalso
          unfold pInv at h
          rw [hb] at h
          simp at h
          omega
      simp [pstep, pInv, hp, hti]
    · simp [pstep, pInv, hp]

theorem foldl_pstep_inv (evs : List PEvent) (s : PState) (h : pInv s) :
    pInv (evs.foldl pstep s) := by
  induction evs generalizing s with
  | nil => exact h
  | cons e rest ih => exact ih (pstep s e) (pstep_inv s e h)

theorem prun_inv (evs : List PEvent) : pInv (prun evs) :=
  foldl_pstep_inv evs pInit rfl

/-- C7: the parallax loop coalesces scroll bursts to at most one
recomputation per rendered frame.  After any event sequence at most one frame
callback is outstanding; a scroll event arriving while the in-flight flag is
set is dropped (the state is unchanged, nothing is queued); and the next
rendered frame runs at most one `handleScroll` recomputation. -/
theorem parallax_coalescing (evs : List PEvent) (s : PState)
    (hs : s.ticking = true) :
    (prun evs).pending ≤ 1 ∧
      pstep s .scroll = s ∧
      (pstep (prun evs) .frame).recomputes ≤ (prun evs).recomputes + 1 := by
  refine ⟨?_, ?_, ?_⟩
  · have h := prun_inv evs
    unfold pInv at h
    split at h <;> omega
  · unfold pstep
    simp [hs]
  · have h := prun_inv evs
    unfold pInv at h
    unfold pstep
    split at h <;> simp [h]

/-- Witness for `parallax_coalescing`: a burst of three scroll events and an
in-flight state. -/
theorem parallax_coalescing_witness :
    (prun [.scroll, .scroll, .scroll]).pending ≤ 1 ∧
      pstep ⟨true, 1, 0⟩ .scroll = ⟨true, 1, 0⟩ ∧
      (pstep (prun [.scroll, .scroll, .scroll]) .frame).recomputes
        ≤ (prun [.scroll, .scroll, .scroll]).recomputes + 1 :=
  parallax_coalescing [.scroll, .scroll, .scroll] ⟨true, 1, 0⟩ rfl

-- ## Text reveal (C9, C10)

/-- The content of one wrapped `char-reveal` span in `chars` mode
(`part_000` lines 349–351): the character itself, with a space replaced by
the non-breaking placeholder `&nbsp;`. -/
def wrapCharUnit (c : Char) : String :=
  if c = ' ' then "&nbsp;" else ⟨[c]⟩

/-- `chars`-mode split (`part_000` lines 347–358): `text.split('')` mapped to
one wrapped inline unit per character, in order. -/
def charRevealUnits (text : String) : List String :=
  text.data.map wrapCharUnit

/-- JavaScript `String.prototype.split` with a single-character separator:
splits at every occurrence, keeping empty pieces. -/
def splitOnChar (sep : Char) : List Char → List (List Char)
  | [] => [[]]
  | c :: rest =>
    if c = sep then [] :: splitOnChar sep rest
    else
      match splitOnChar sep rest with
      | [] => [[c]]
      | g :: gs => (c :: g) :: gs

/-- `words`-mode split (`part_000` lines 360–363): `text.split(' ')` mapped
to one wrapped inline unit per piece. -/
def wordRevealUnits (text : String) : List String :=
  (splitOnChar ' ' text.data).map (fun cs => ⟨cs⟩)

/-- C10: text-reveal splitting on `"Hi there"`.  In `chars` mode the split
yields one wrapped unit per character of the input (the general length
equality), in original left-to-right order with the space replaced by the
non-breaking placeholder; in `words` mode (the default) the split yields
exactly the two units `"Hi"` and `"there"`. -/
theorem text_reveal_split (t : String) :
    (charRevealUnits t).length = t.data.length ∧
      charRevealUnits "Hi there"
        = ["H", "i", "&nbsp;", "t", "h", "e", "r", "e"] ∧
      wordRevealUnits "Hi there" = ["Hi", "there"] :=
  ⟨List.length_map _ _, by decide, by decide⟩

/-- The set of `[data-text-reveal]` elements found at setup. -/
structure TextRevealPage where
  textElements : List Nat
deriving DecidableEq, Repr

/-- Events after text-reveal setup: an intersection reveal of one element
(which splits its text and animates the inner spans — the element's own
inline opacity is not touched, whether or not the primitive call succeeds),
or the 100 ms grace timeout (`part_000` lines 389–393) which sets every text
element's opacity to `'1'`. -/
inductive TREvent where
  | reveal (target : Nat) (animateOk : Bool)
  | grace
deriving DecidableEq, Repr

/-- Setup (`part_000` lines 383–386): every text element's inline opacity is
set to `'0'` before any splitting or animation happens. -/
def trSetup (p : TextRevealPage) (op : Nat → String) : Nat → String :=
  fun e => if e ∈ p.textElements then "0" else op e

/-- Effect of one event on the elements' inline opacity. -/
def trStep (p : TextRevealPage) (op : Nat → String) : TREvent → (Nat → String)
  | .reveal _ _ => op
  | .grace => fun e => if e ∈ p.textElements then "1" else op e

/-- Opacity after a sequence of events. -/
def trRun (p : TextRevealPage) (op : Nat → String) (evs : List TREvent) :
    Nat → String :=
  evs.foldl (trStep p) op

theorem trRun_keeps_one (p : TextRevealPage) (op : Nat → String)
    (evs : List TREvent) (e : Nat) (he : e ∈ p.textElements)
    (h1 : op e = "1") : trRun p op evs e = "1" := by
  induction evs generalizing op with
  | nil => exact h1
  | cons ev rest ih =>
    simp only [trRun, List.foldl_cons] at ih ⊢
    cases ev with
    | reveal t ok => exact ih op h1
    | grace => exact ih _ (by simp [trStep, he])

theorem trRun_grace_one (p : TextRevealPage) (op : Nat → String)
    (evs : List TREvent) (e : Nat) (he : e ∈ p.textElements)
    (hg : TREvent.grace ∈ evs) : trRun p op evs e = "1" := by
  induction evs generalizing op with
  | nil => cases hg
  | cons ev rest ih =>
    simp only [trRun, List.foldl_cons] at ih ⊢
    rcases List.mem_cons.mp hg with hev | hrest
    · rw [← hev]
      exact trRun_keeps_one p _ rest e he (by simp [trStep, he])
    · exact ih _ hrest

/-- C9: every text-reveal element is hidden (`opacity = '0'`) at setup,
before any splitting, and after the fixed 100 ms grace timeout fires its
opacity is `'1'` — regardless of which reveals happened, in which order,
and whether any animation primitive call succeeded or was ever scheduled:
the element is never left invisible forever. -/
theorem text_reveal_guaranteed_visible
    (p : TextRevealPage) (op0 : Nat → String) (evs : List TREvent) (e : Nat)
    (he : e ∈ p.textElements) (hg : TREvent.grace ∈ evs) :
    trSetup p op0 e = "0" ∧ trRun p (trSetup p op0) evs e = "1" :=
  ⟨by simp [trSetup, he], trRun_grace_one p (trSetup p op0) evs e he hg⟩

/-- Witness for `text_reveal_guaranteed_visible`: element 3, whose reveal
animation fails, still ends at opacity 1 after the grace timeout. -/
theorem text_reveal_guaranteed_visible_witness :
    trSetup ⟨[3]⟩ (fun _ => "") 3 = "0" ∧
      trRun ⟨[3]⟩ (trSetup ⟨[3]⟩ (fun _ => ""))
        [.reveal 3 false, .grace] 3 = "1" :=
  text_reveal_guaranteed_visible ⟨[3]⟩ (fun _ => "")
    [.reveal 3 false, .grace] 3 (by decide) (by decide)
